import Mathlib

/-
Verification of the GPU temperature logger (src/gputemp.py) against its
specification.

Shallow embedding conventions:
* The SQLite table `gpu_temperatures` is a `List Row` in rowid (insertion)
  order, oldest first.  Both columns of the table are nullable in the schema
  (`timestamp DATETIME, temperature INTEGER` with no NOT NULL), so a row
  carries `Option` fields.
* Timestamps are `Nat` microseconds since the epoch.  `datetime.now()` values
  are stored by the sqlite3 adapter as fixed-width ISO text, whose
  lexicographic order coincides with numeric order of the microsecond count,
  so `Nat` comparison is order-faithful to the SQL `ORDER BY timestamp`.
* Python exceptions are modelled with `Except PyErr`.  A `dbFail : Bool`
  environment flag says whether the store is unusable (unwritable path, disk
  full): any sqlite3 call raises exactly when `dbFail = true`.
* The output of the external `nvidia-smi` command is a `List Char`
  (`os.popen(...).read()` captures stdout as text and never raises; a missing
  tool or non-zero exit yields empty stdout).
* `time.time()` / `time.sleep` are idealised: each loop iteration consumes
  exactly `interval_ms` of wall clock (the sleep), tick work is instantaneous,
  so a run of `duration_seconds` performs `⌈duration_seconds*1000 / interval_ms⌉`
  iterations.  A `KeyboardInterrupt` is delivered at tick granularity via an
  `itr : Nat → Bool` oracle (true means the signal arrives during tick k's
  sleep).
-/

/-- Python exception classes that the script can raise. -/
inductive PyErr where
  | storage
  | valueError
deriving DecidableEq

/-- One row of the `gpu_temperatures` table (rowid omitted; position in the
list is the rowid order).  Both columns are nullable in the declared schema. -/
structure Row where
  timestamp : Option Nat
  temperature : Option Int
deriving DecidableEq

/-- The table contents, in rowid (insertion) order, oldest first. -/
abbrev Store := List Row

/-- Python `str.strip()` on a char list: drop whitespace from both ends. -/
def pyStrip (cs : List Char) : List Char :=
  ((cs.dropWhile Char.isWhitespace).reverse.dropWhile Char.isWhitespace).reverse

/-- Numeric value of a decimal digit character. -/
def digitVal (c : Char) : Nat := c.toNat - '0'.toNat

/-- Digits after the first one, in Python `int()` syntax: decimal digits with
single underscores allowed between digits. -/
def pyDigitsRest : List Char → Nat → Option Nat
  | [], acc => some acc
  | c :: cs, acc =>
    if c.isDigit then pyDigitsRest cs (acc * 10 + digitVal c)
    else if c = '_' then
      match cs with
      | c2 :: cs2 =>
        if c2.isDigit then pyDigitsRest cs2 (acc * 10 + digitVal c2) else Option.none
      | [] => Option.none
    else Option.none

/-- An unsigned decimal literal in Python `int()` syntax: at least one digit,
underscores only between digits. -/
def pyNatDigits : List Char → Option Nat
  | [] => Option.none
  | c :: cs => if c.isDigit then pyDigitsRest cs (digitVal c) else Option.none

/-- Python `int(s)` on a string: surrounding whitespace ignored, optional
sign, then a decimal literal.  `Option.none` models `ValueError`. -/
def pyInt (cs : List Char) : Option Int :=
  match pyStrip cs with
  | '+' :: rest => (pyNatDigits rest).map (fun n => (n : Int))
  | '-' :: rest => (pyNatDigits rest).map (fun n => -(n : Int))
  | rest => (pyNatDigits rest).map (fun n => (n : Int))

/-- Python `int(s)` as a raising operation (`ValueError` on parse failure). -/
def pyIntE (cs : List Char) : Except PyErr Int :=
  match pyInt cs with
  | some v => Except.ok v
  | Option.none => Except.error PyErr.valueError

/-- `get_gpu_temperature` (gputemp.py lines 17-29): run the nvidia-smi query,
strip its stdout, return `int(result) if result else None`; any exception in
the body is caught and turned into `None`.  `out` is the captured stdout. -/
def get_gpu_temperature (out : List Char) : Option Int :=
  let result := pyStrip out
  let body : Except PyErr (Option Int) :=
    if result.isEmpty then Except.ok Option.none
    else (pyIntE result).map some
  match body with
  | Except.ok v => v
  | Except.error _ => Option.none

/-- `init_database` (gputemp.py lines 31-52): `CREATE TABLE IF NOT EXISTS`.
The database state is `Option (List Row)`: `none` when the table does not yet
exist.  On storage failure the exception is logged and re-raised. -/
def init_database (dbFail : Bool) (table : Option (List Row)) :
    Except PyErr (Option (List Row)) :=
  if dbFail then Except.error PyErr.storage
  else Except.ok (some (table.getD []))

/-- The SQL `INSERT INTO gpu_temperatures (timestamp, temperature) VALUES (?,?)`
of gputemp.py lines 71-74: appends one row in rowid order. -/
def insertReading (s : Store) (ts : Nat) (v : Int) : Store :=
  s ++ [⟨some ts, some v⟩]

/-- A Python value appearing in the dict returned by `log_temperature`. -/
inductive PyVal where
  | str : String → PyVal
  | int : Int → PyVal
  | pynone : PyVal
deriving DecidableEq

/-- `timestamp.strftime(<date format to seconds>)` of gputemp.py line 81:
renders the capture time at second precision (microseconds dropped). -/
def fmtTs (ts : Nat) : String := toString (ts / 1000000)

/-- Coerce an optional sensor value to the Python value put in the dict. -/
def optVal : Option Int → PyVal
  | Option.none => PyVal.pynone
  | some v => PyVal.int v

/-- The dict literal returned by `log_temperature` (gputemp.py lines 80-83). -/
def tickDict (ts : Nat) (gpuTemp : Option Int) : List (String × PyVal) :=
  [("timestamp", PyVal.str (fmtTs ts)), ("gpu_temperature", optVal gpuTemp)]

/-- `log_temperature` (gputemp.py lines 54-87): capture timestamp, read the
sensor; only when a value was obtained, insert a row (sqlite3 calls raise when
`dbFail`); return the status dict.  The `except` clause re-raises, so a
storage error propagates. -/
def log_temperature (dbFail : Bool) (s : Store) (ts : Nat) (out : List Char) :
    Except PyErr (Store × List (String × PyVal)) :=
  match get_gpu_temperature out with
  | some v =>
    if dbFail then Except.error PyErr.storage
    else Except.ok (insertReading s ts v, tickDict ts (some v))
  | Option.none => Except.ok (s, tickDict ts Option.none)

/-- Insert one row into a list already sorted by `ORDER BY timestamp DESC`
(SQLite: NULL sorts as the smallest value). -/
def nullLt : Option Nat → Option Nat → Bool
  | Option.none, Option.none => false
  | Option.none, some _ => true
  | some _, Option.none => false
  | some a, some b => a < b

def insertDesc (x : Row) : List Row → List Row
  | [] => [x]
  | y :: ys =>
    if nullLt x.timestamp y.timestamp then y :: insertDesc x ys
    else x :: y :: ys

/-- The `ORDER BY timestamp DESC` sort of the SELECT in gputemp.py lines
127-132, as a stable insertion sort (ties keep rowid order). -/
def sortDesc : List Row → List Row
  | [] => []
  | a :: l => insertDesc a (sortDesc l)

/-- The (timestamp, temperature) pair a SELECT returns for a row. -/
def rowPair (r : Row) : Option Nat × Option Int := (r.timestamp, r.temperature)

/-- `query_temperatures` (gputemp.py lines 116-146), restricted to the rows the
SELECT fetches: `SELECT timestamp, temperature FROM gpu_temperatures ORDER BY
timestamp DESC LIMIT ?`. -/
def query_temperatures (s : Store) (limit : Nat) : List (Option Nat × Option Int) :=
  ((sortDesc s).map rowPair).take limit

/-- Number of iterations of the `while time.time() < end_time` loop in
gputemp.py lines 104-106 under the idealised clock: iterations happen at
`t0 + k*interval_ms` while that is `< t0 + durationMs`, i.e. `⌈durationMs /
intervalMs⌉` of them. -/
def numTicks (durationMs intervalMs : Nat) : Nat :=
  (durationMs + intervalMs - 1) / intervalMs

/-- The body of `monitor_temperature`'s while loop, running `n` more
iterations starting at tick index `k`.  `outputs k` is the sensor stdout at
tick `k`, `times k` the captured timestamp, and `itr k` whether a
`KeyboardInterrupt` arrives during tick `k`'s sleep; the surrounding
`except KeyboardInterrupt` clause (gputemp.py lines 110-111) catches it and
returns normally.  The result carries the final store and the number of
completed ticks. -/
def monitorLoopAux (dbFail : Bool) (outputs : Nat → List Char) (times : Nat → Nat)
    (itr : Nat → Bool) : Nat → Nat → Store → Except PyErr (Store × Nat)
  | 0, k, s => Except.ok (s, k)
  | n + 1, k, s =>
    match log_temperature dbFail s (times k) (outputs k) with
    | Except.error e => Except.error e
    | Except.ok (s', _) =>
      if itr k then Except.ok (s', k + 1)
      else monitorLoopAux dbFail outputs times itr n (k + 1) s'

/-- `monitor_temperature` (gputemp.py lines 89-114): run the sampling loop for
`durationSec` seconds at `intervalMs` intervals.  Tick errors other than
`KeyboardInterrupt` are logged and re-raised. -/
def monitor_temperature (dbFail : Bool) (intervalMs durationSec : Nat)
    (outputs : Nat → List Char) (times : Nat → Nat) (itr : Nat → Bool)
    (s : Store) : Except PyErr (Store × Nat) :=
  monitorLoopAux dbFail outputs times itr (numTicks (durationSec * 1000) intervalMs) 0 s

/-- An arbitrary sequence of single-shot `log_temperature` operations, each
with its captured timestamp and sensor stdout; an exception aborts the rest. -/
def runTicks (dbFail : Bool) : List (Nat × List Char) → Store → Except PyErr Store
  | [], s => Except.ok s
  | (ts, out) :: rest, s =>
    match log_temperature dbFail s ts out with
    | Except.error e => Except.error e
    | Except.ok (s', _) => runTicks dbFail rest s'

/-- Well-formedness of a persisted row: both columns non-null. -/
def wfRow (r : Row) : Prop := r.timestamp.isSome = true ∧ r.temperature.isSome = true

instance : DecidablePred wfRow := fun r => by unfold wfRow; infer_instance

/-- Every persisted row has a non-null timestamp and a non-null value. -/
def wfStore (s : Store) : Prop := ∀ r ∈ s, wfRow r

instance : DecidablePred wfStore := fun s => List.decidableBAll wfRow s

/-- Timestamps strictly increase along insertion (rowid) order. -/
def chrono (s : List Row) : Prop :=
  List.Pairwise (fun a b => nullLt a.timestamp b.timestamp = true) s

instance : DecidablePred chrono := fun s => by unfold chrono; infer_instance

instance {ε α : Type _} [DecidableEq ε] [DecidableEq α] : DecidableEq (Except ε α) :=
  fun a b =>
  match a, b with
  | Except.error e, Except.error f =>
    if h : e = f then Decidable.isTrue (by rw [h])
    else Decidable.isFalse (by intro hc; cases hc; exact h rfl)
  | Except.error _, Except.ok _ => Decidable.isFalse (by intro hc; cases hc)
  | Except.ok _, Except.error _ => Decidable.isFalse (by intro hc; cases hc)
  | Except.ok x, Except.ok y =>
    if h : x = y then Decidable.isTrue (by rw [h])
    else Decidable.isFalse (by intro hc; cases hc; exact h rfl)

/-! ### Lemmas about the `ORDER BY timestamp DESC` sort -/

theorem insertDesc_last (x : Row) (l : List Row)
    (h : ∀ y ∈ l, nullLt x.timestamp y.timestamp = true) :
    insertDesc x l = l ++ [x] := by
  induction l with
  | nil => rfl
  | cons y ys ih =>
    have hy : nullLt x.timestamp y.timestamp = true := h y (List.mem_cons_self y ys)
    simp only [insertDesc, hy, if_true, List.cons_append]
    rw [ih (fun z hz => h z (List.mem_cons_of_mem _ hz))]

theorem sortDesc_append_greatest (x : Row) (l : List Row)
    (h : ∀ y ∈ l, nullLt y.timestamp x.timestamp = true) :
    sortDesc (l ++ [x]) = x :: sortDesc l := by
  induction l with
  | nil => rfl
  | cons a l' ih =>
    have ha : nullLt a.timestamp x.timestamp = true := h a (List.mem_cons_self a l')
    show insertDesc a (sortDesc (l' ++ [x])) = x :: insertDesc a (sortDesc l')
    rw [ih (fun z hz => h z (List.mem_cons_of_mem _ hz))]
    simp only [insertDesc, ha, if_true]

theorem sortDesc_chrono (s : List Row) (h : chrono s) : sortDesc s = s.reverse := by
  induction s with
  | nil => rfl
  | cons a l ih =>
    rcases List.pairwise_cons.mp h with ⟨ha, hl⟩
    show insertDesc a (sortDesc l) = (a :: l).reverse
    rw [ih hl, insertDesc_last a l.reverse (fun y hy => ha y (List.mem_reverse.mp hy)),
      List.reverse_cons]

/-! ### Claim C3 -/

/-- Claim C3 (amended): `query_temperatures` returns the readings with the
greatest timestamps, ordered by timestamp newest-first.  When the store's
timestamps strictly increase in insertion order — the situation the claim's
"most recently inserted, newest-first" describes — the result is the last `n`
inserted rows, newest-first, and exactly all `K` of them newest-first when the
store holds `K < n` rows.  On any store, `limit = 0` gives the empty sequence,
and so does any limit on the empty store.  (As literally stated, "the N most
recently inserted" is false: the SELECT orders by the `timestamp` column, not
by rowid, see `c3_counterexample`.) -/
theorem c3_recent_newest_first (s : Store) (n : Nat) :
    (chrono s → query_temperatures s n = (s.reverse.map rowPair).take n)
    ∧ query_temperatures s 0 = []
    ∧ query_temperatures ([] : Store) n = [] := by
  refine ⟨fun h => ?_, rfl, by simp [query_temperatures, sortDesc]⟩
  unfold query_temperatures
  rw [sortDesc_chrono s h]

/-- Witness for C3: on the two-row chronological store the theorem evaluates
to the concrete newest-first answer. -/
theorem c3_recent_newest_first_witness :
    query_temperatures [⟨some 1, some 5⟩, ⟨some 2, some 6⟩] 1
      = (([⟨some 1, some 5⟩, ⟨some 2, some 6⟩] : Store).reverse.map rowPair).take 1 :=
  (c3_recent_newest_first [⟨some 1, some 5⟩, ⟨some 2, some 6⟩] 1).1 (by decide)

/-- Counterexample for C3 as stated: in the store whose rows were inserted in
the order (timestamp 10, 50) then (timestamp 5, 60) — reachable when the wall
clock moves backwards between ticks — the 2 most recently inserted readings
newest-first are [(5, 60), (10, 50)], but the code returns them ordered by the
timestamp column instead. -/
theorem c3_counterexample :
    query_temperatures [⟨some 10, some 50⟩, ⟨some 5, some 60⟩] 2
        ≠ [((some 5 : Option Nat), (some 60 : Option Int)),
           ((some 10 : Option Nat), (some 50 : Option Int))]
    ∧ query_temperatures [⟨some 10, some 50⟩, ⟨some 5, some 60⟩] 2
        = [((some 10 : Option Nat), (some 50 : Option Int)),
           ((some 5 : Option Nat), (some 60 : Option Int))] := by
  constructor <;> decide

/-! ### Claim C4 -/

/-- Claim C4 (amended): if the inserted timestamp `t` is greater (under the
SQL ordering, where NULL is smallest) than every timestamp already in the
store — in particular always, when the clock is monotone — then `insert(t, v)`
followed immediately by `recent(1)` yields exactly `[(t, v)]`.  (As literally
stated, for every store and every `t`, the claim is false: `recent` orders by
the timestamp column, so inserting a timestamp older than an existing row does
not surface it, see `c4_counterexample`.) -/
theorem c4_insert_then_recent_one (s : Store) (t : Nat) (v : Int)
    (h : ∀ r ∈ s, nullLt r.timestamp (some t) = true) :
    query_temperatures (insertReading s t v) 1 = [(some t, some v)] := by
  unfold query_temperatures insertReading
  rw [sortDesc_append_greatest ⟨some t, some v⟩ s (fun y hy => h y hy)]
  rfl

/-- Witness for C4: inserting (3, 7) into a store whose only timestamp is 1
and querying the most recent row yields [(3, 7)]. -/
theorem c4_insert_then_recent_one_witness :
    query_temperatures (insertReading [⟨some 1, some 2⟩] 3 7) 1 = [(some 3, some 7)] :=
  c4_insert_then_recent_one [⟨some 1, some 2⟩] 3 7 (by decide)

/-- Counterexample for C4 as stated: with a row of timestamp 10 already
present, inserting (5, 60) and querying `recent(1)` returns the timestamp-10
row, not the just-inserted [(5, 60)] the claim requires. -/
theorem c4_counterexample :
    query_temperatures (insertReading [⟨some 10, some 50⟩] 5 60) 1
        ≠ [((some 5 : Option Nat), (some 60 : Option Int))] := by
  decide

/-! ### Claim C7 -/

/-- Claim C7: `ensure_schema` (`init_database`, with the store available) is
idempotent.  It succeeds whether or not the table already exists (`table =
none` creates it empty, `some rows` keeps it), applying it to its own result
changes nothing, and existing content is preserved. -/
theorem c7_init_database_idempotent (table : Option (List Row)) :
    init_database false table = Except.ok (some (table.getD []))
    ∧ init_database false (some (table.getD [])) = Except.ok (some (table.getD []))
    ∧ ∀ rows, table = some rows → init_database false table = Except.ok (some rows) := by
  refine ⟨rfl, rfl, ?_⟩
  rintro rows rfl
  rfl

/-- Witness for C7: a second `init_database` call on a one-row table keeps the
row. -/
theorem c7_init_database_idempotent_witness :
    init_database false (some [⟨some 1, some 2⟩]) = Except.ok (some [⟨some 1, some 2⟩]) :=
  (c7_init_database_idempotent (some [⟨some 1, some 2⟩])).2.2 [⟨some 1, some 2⟩] rfl

/-! ### Claim C2 -/

/-- Claim C2: for every sensor command output whose stripped text does not
parse as a Python integer — which covers empty output, and the empty stdout of
a missing tool or failing invocation, as well as any malformed text —
`get_gpu_temperature` returns `none`.  The embedding makes the try/except
explicit: the only exception the body can raise (`ValueError` from `int`) is
caught and mapped to `None`, so the function is total and never propagates an
exception. -/
theorem c2_malformed_output_absent (out : List Char)
    (h : pyInt (pyStrip out) = Option.none) :
    get_gpu_temperature out = Option.none := by
  unfold get_gpu_temperature
  by_cases he : (pyStrip out).isEmpty
  · simp [he]
  · simp [he, pyIntE, h, Except.map]

/-- Witness for C2: the non-numeric output "N/A" yields an absent reading. -/
theorem c2_malformed_output_absent_witness :
    get_gpu_temperature ['N', '/', 'A'] = Option.none :=
  c2_malformed_output_absent ['N', '/', 'A'] (by decide)

/-! ### Claim C9 -/

/-- Claim C9: whenever the sensor command's stdout denotes a valid integer V
(its stripped text parses as the Python integer V), `get_gpu_temperature`
returns exactly V. -/
theorem c9_valid_output_exact (out : List Char) (v : Int)
    (h : pyInt (pyStrip out) = some v) :
    get_gpu_temperature out = some v := by
  unfold get_gpu_temperature
  by_cases he : (pyStrip out).isEmpty
  · rw [List.isEmpty_iff] at he
    rw [he] at h
    simp [show pyInt [] = Option.none from rfl] at h
  · simp [he, pyIntE, h, Except.map]

/-- Witness for C9: the output " 62\n" denotes 62 and is read as exactly 62. -/
theorem c9_valid_output_exact_witness :
    get_gpu_temperature [' ', '6', '2', '\n'] = some 62 :=
  c9_valid_output_exact [' ', '6', '2', '\n'] 62 (by decide)

/-! ### Claim C1 -/

theorem log_temperature_wf {dbFail : Bool} {s : Store} {ts : Nat} {out : List Char}
    {s' : Store} {dict : List (String × PyVal)}
    (h : log_temperature dbFail s ts out = Except.ok (s', dict))
    (hs : wfStore s) : wfStore s' := by
  unfold log_temperature at h
  cases hg : get_gpu_temperature out with
  | none =>
    rw [hg] at h
    cases h
    exact hs
  | some v =>
    rw [hg] at h
    cases dbFail with
    | true => cases h
    | false =>
      cases h
      intro r hr
      rcases List.mem_append.mp hr with hr | hr
      · exact hs r hr
      · rcases List.mem_singleton.mp hr with rfl
        exact ⟨rfl, rfl⟩

theorem runTicks_wf (dbFail : Bool) :
    ∀ (ticks : List (Nat × List Char)) (s s' : Store),
      runTicks dbFail ticks s = Except.ok s' → wfStore s → wfStore s' := by
  intro ticks
  induction ticks with
  | nil =>
    intro s s' h hs
    cases h
    exact hs
  | cons tk rest ih =>
    intro s s' h hs
    rcases tk with ⟨ts, out⟩
    unfold runTicks at h
    cases hl : log_temperature dbFail s ts out with
    | error e => rw [hl] at h; cases h
    | ok p =>
      rw [hl] at h
      exact ih p.1 s' h (log_temperature_wf (by rw [hl]) hs)

theorem monitorLoopAux_wf (dbFail : Bool) (outputs : Nat → List Char)
    (times : Nat → Nat) (itr : Nat → Bool) :
    ∀ (n k : Nat) (s : Store) (s' : Store) (k' : Nat),
      monitorLoopAux dbFail outputs times itr n k s = Except.ok (s', k') →
      wfStore s → wfStore s' := by
  intro n
  induction n with
  | zero =>
    intro k s s' k' h hs
    cases h
    exact hs
  | succ m ih =>
    intro k s s' k' h hs
    unfold monitorLoopAux at h
    cases hl : log_temperature dbFail s (times k) (outputs k) with
    | error e => rw [hl] at h; cases h
    | ok p =>
      rw [hl] at h
      obtain ⟨s1, d1⟩ := p
      dsimp only at h
      have hwf : wfStore s1 := log_temperature_wf hl hs
      by_cases hk : itr k
      · rw [if_pos hk] at h
        cases h
        exact hwf
      · rw [if_neg hk] at h
        exact ih (k + 1) s1 s' k' h hwf

/-- Claim C1: in every run — one single-shot tick, any sequence of single-shot
ticks, or a monitoring loop — every row persisted in the store has a non-null
timestamp and a non-null integer value, because a tick whose sensor read is
absent inserts no row at all (second conjunct: the store is returned
unchanged). -/
theorem c1_persisted_readings_wellformed (dbFail : Bool) :
    (∀ (ticks : List (Nat × List Char)) (s s' : Store),
        runTicks dbFail ticks s = Except.ok s' → wfStore s → wfStore s')
    ∧ (∀ (s : Store) (ts : Nat) (out : List Char),
        get_gpu_temperature out = Option.none →
        log_temperature dbFail s ts out = Except.ok (s, tickDict ts Option.none))
    ∧ (∀ (i d : Nat) (outputs : Nat → List Char) (times : Nat → Nat)
        (itr : Nat → Bool) (s s' : Store) (k : Nat),
        monitor_temperature dbFail i d outputs times itr s = Except.ok (s', k) →
        wfStore s → wfStore s') := by
  refine ⟨runTicks_wf dbFail, ?_, ?_⟩
  · intro s ts out hg
    unfold log_temperature
    rw [hg]
  · intro i d outputs times itr s s' k h hs
    exact monitorLoopAux_wf dbFail outputs times itr _ 0 s s' k h hs

/-- Witness for C1: running the tick sequence [(1, "62"), (2, "")] from the
empty store succeeds, and the resulting store [(some 1, some 62)] is
well-formed. -/
theorem c1_persisted_readings_wellformed_witness :
    wfStore [⟨some 1, some 62⟩] :=
  (c1_persisted_readings_wellformed false).1 [(1, ['6', '2']), (2, [])] []
    [⟨some 1, some 62⟩] (by decide) (by decide)

/-! ### Claim C6 -/

theorem monitorLoopAux_sensor_absent (dbFail : Bool) (outputs : Nat → List Char)
    (times : Nat → Nat) (h : ∀ k, get_gpu_temperature (outputs k) = Option.none) :
    ∀ (n k : Nat) (s : Store),
      monitorLoopAux dbFail outputs times (fun _ => false) n k s = Except.ok (s, k + n) := by
  intro n
  induction n with
  | zero => intro k s; rfl
  | succ m ih =>
    intro k s
    show (match log_temperature dbFail s (times k) (outputs k) with
      | Except.error e => Except.error e
      | Except.ok (s', _) =>
        if (fun (_ : Nat) => false) k then Except.ok (s', k + 1)
        else monitorLoopAux dbFail outputs times (fun _ => false) m (k + 1) s')
      = Except.ok (s, k + (m + 1))
    rw [show log_temperature dbFail s (times k) (outputs k)
        = Except.ok (s, tickDict (times k) Option.none) by
      unfold log_temperature; rw [h k]]
    show monitorLoopAux dbFail outputs times (fun _ => false) m (k + 1) s
      = Except.ok (s, k + (m + 1))
    rw [ih (k + 1)]
    congr 2
    omega

/-- Claim C6: a monitoring run with positive interval and positive finite
duration in which the sensor read is absent on every tick terminates (the
embedding is a total function) after its full tick count
`⌈duration·1000 / interval⌉`, returns the store unchanged (zero new readings),
and raises no error — even if the storage environment is broken, since absent
ticks never touch the store. -/
theorem c6_all_ticks_absent (dbFail : Bool) (i d : Nat) (outputs : Nat → List Char)
    (times : Nat → Nat) (s : Store) (hi : 0 < i) (hd : 0 < d)
    (h : ∀ k, get_gpu_temperature (outputs k) = Option.none) :
    monitor_temperature dbFail i d outputs times (fun _ => false) s
      = Except.ok (s, numTicks (d * 1000) i) := by
  unfold monitor_temperature
  rw [monitorLoopAux_sensor_absent dbFail outputs times h (numTicks (d * 1000) i) 0 s]
  rw [Nat.zero_add]

/-- Witness for C6: a 1-second run at 100 ms intervals with empty sensor
output every tick completes all 10 ticks with the store still empty. -/
theorem c6_all_ticks_absent_witness :
    monitor_temperature true 100 1 (fun _ => []) (fun _ => 0) (fun _ => false) []
      = Except.ok ([], numTicks (1 * 1000) 100) :=
  c6_all_ticks_absent true 100 1 (fun _ => []) (fun _ => 0) [] (by decide) (by decide)
    (fun _ => rfl)

/-! ### Claim C5 -/

/-- Claim C5: storage failures propagate, and a store operation raises exactly
when a storage failure occurred.  With the store broken (`dbFail = true`),
`init_database` raises, a single-shot tick that obtained a sensor value raises
from the insert, and a monitoring run whose first tick obtains a value raises
out of the loop; with the store healthy (`dbFail = false`) neither operation
raises; and a tick that never touches the store (absent sensor value) does not
raise even when the store is broken. -/
theorem c5_storage_failure_propagates (table : Option (List Row)) (s : Store)
    (ts : Nat) (out : List Char) (v : Int) (i d : Nat) (times : Nat → Nat)
    (itr : Nat → Bool) :
    init_database true table = Except.error PyErr.storage
    ∧ (∃ t, init_database false table = Except.ok t)
    ∧ (get_gpu_temperature out = some v →
        log_temperature true s ts out = Except.error PyErr.storage)
    ∧ (∃ r, log_temperature false s ts out = Except.ok r)
    ∧ (get_gpu_temperature out = Option.none →
        log_temperature true s ts out = Except.ok (s, tickDict ts Option.none))
    ∧ (get_gpu_temperature out = some v → 0 < i → 0 < d →
        monitor_temperature true i d (fun _ => out) times itr s
          = Except.error PyErr.storage) := by
  refine ⟨rfl, ⟨some (table.getD []), rfl⟩, ?_, ?_, ?_, ?_⟩
  · intro hg
    unfold log_temperature
    rw [hg]
    rfl
  · cases hg : get_gpu_temperature out with
    | none =>
      exact ⟨(s, tickDict ts Option.none), by unfold log_temperature; rw [hg]⟩
    | some w =>
      refine ⟨(insertReading s ts w, tickDict ts (some w)), ?_⟩
      unfold log_temperature
      rw [hg]
      rfl
  · intro hg
    unfold log_temperature
    rw [hg]
  · intro hg hi hd
    unfold monitor_temperature
    have hpos : 0 < numTicks (d * 1000) i := by
      unfold numTicks
      exact Nat.div_pos (by omega) hi
    obtain ⟨m, hm⟩ : ∃ m, numTicks (d * 1000) i = m + 1 :=
      ⟨numTicks (d * 1000) i - 1, by omega⟩
    rw [hm]
    show (match log_temperature true s (times 0) out with
      | Except.error e => Except.error e
      | Except.ok (s', _) =>
        if itr 0 then Except.ok (s', 0 + 1)
        else monitorLoopAux true (fun _ => out) times itr m (0 + 1) s')
      = Except.error PyErr.storage
    rw [show log_temperature true s (times 0) out = Except.error PyErr.storage by
      unfold log_temperature
      rw [hg]
      rfl]

/-- Witness for C5: with a broken store, the single-shot tick on output "62"
raises the storage error, and so does a 1-second monitoring run at 100 ms. -/
theorem c5_storage_failure_propagates_witness :
    log_temperature true [] 0 ['6', '2'] = Except.error PyErr.storage
    ∧ monitor_temperature true 100 1 (fun _ => ['6', '2']) (fun _ => 0)
        (fun _ => false) [] = Except.error PyErr.storage :=
  ⟨(c5_storage_failure_propagates Option.none [] 0 ['6', '2'] 62 100 1 (fun _ => 0)
      (fun _ => false)).2.2.1 (by decide),
   (c5_storage_failure_propagates Option.none [] 0 ['6', '2'] 62 100 1 (fun _ => 0)
      (fun _ => false)).2.2.2.2.2 (by decide) (by decide) (by decide)⟩

/-! ### Claim C8 -/

theorem log_temperature_extends (s : Store) (ts : Nat) (out : List Char) :
    ∃ t dict, log_temperature false s ts out = Except.ok (s ++ t, dict) := by
  cases hg : get_gpu_temperature out with
  | none =>
    refine ⟨[], tickDict ts Option.none, ?_⟩
    unfold log_temperature
    rw [hg, List.append_nil]
  | some v =>
    refine ⟨[⟨some ts, some v⟩], tickDict ts (some v), ?_⟩
    unfold log_temperature
    rw [hg]
    rfl

theorem monitorLoopAux_interrupted (outputs : Nat → List Char) (times : Nat → Nat)
    (j : Nat) :
    ∀ (n k : Nat) (s : Store), k ≤ j → j < k + n →
      ∃ s' t, monitorLoopAux false outputs times (fun m => m == j) n k s
          = Except.ok (s', j + 1) ∧ s' = s ++ t := by
  intro n
  induction n with
  | zero =>
    intro k s hk hj
    exact absurd hj (by omega)
  | succ m ih =>
    intro k s hk hj
    obtain ⟨t0, dict, hlog⟩ := log_temperature_extends s (times k) (outputs k)
    show ∃ s' t, (match log_temperature false s (times k) (outputs k) with
      | Except.error e => Except.error e
      | Except.ok (s', _) =>
        if k == j then Except.ok (s', k + 1)
        else monitorLoopAux false outputs times (fun m => m == j) m (k + 1) s')
      = Except.ok (s', j + 1) ∧ s' = s ++ t
    rw [hlog]
    by_cases hkj : k = j
    · subst hkj
      refine ⟨s ++ t0, t0, ?_, rfl⟩
      simp
    · have hne : (k == j) = false := by simp [hkj]
      rw [show (match Except.ok (s ++ t0, dict) with
          | Except.error e => (Except.error e : Except PyErr (Store × Nat))
          | Except.ok (s', _) =>
            if k == j then Except.ok (s', k + 1)
            else monitorLoopAux false outputs times (fun m => m == j) m (k + 1) s')
          = if k == j then Except.ok (s ++ t0, k + 1)
            else monitorLoopAux false outputs times (fun m => m == j) m (k + 1) (s ++ t0)
        from rfl, hne]
      simp only [Bool.false_eq_true, if_false]
      obtain ⟨s', t', heq, hext⟩ := ih (k + 1) (s ++ t0) (by omega) (by omega)
      exact ⟨s', t0 ++ t', heq, by rw [hext, List.append_assoc]⟩

/-- Claim C8: if a `KeyboardInterrupt` arrives during tick `j` of a monitoring
run (with the store healthy and `j` within the run), the loop terminates
cleanly — the `except KeyboardInterrupt` handler returns normally, so the
result is `Except.ok`, not an error — after `j + 1` ticks, and every reading
persisted before the interrupt remains: the final store extends the initial
one, and nothing is ever removed from it. -/
theorem c8_interrupt_clean_exit (i d : Nat) (outputs : Nat → List Char)
    (times : Nat → Nat) (s : Store) (j : Nat) (hi : 0 < i)
    (hj : j < numTicks (d * 1000) i) :
    ∃ s' t, monitor_temperature false i d outputs times (fun m => m == j) s
        = Except.ok (s', j + 1) ∧ s' = s ++ t :=
  monitorLoopAux_interrupted outputs times j (numTicks (d * 1000) i) 0 s
    (Nat.zero_le j) (by omega)

/-- Witness for C8: interrupting the first tick of a 10-second run at 1000 ms
with sensor output "70" exits cleanly after one tick with the prior (empty)
store extended, not an error. -/
theorem c8_interrupt_clean_exit_witness :
    ∃ s' t, monitor_temperature false 1000 10 (fun _ => ['7', '0']) (fun _ => 5)
        (fun m => m == 0) [] = Except.ok (s', 0 + 1) ∧ s' = [] ++ t :=
  c8_interrupt_clean_exit 1000 10 (fun _ => ['7', '0']) (fun _ => 5) [] 0
    (by decide) (by decide)

/-! ### Claim C10 -/

/-- Claim C10: whenever `log_temperature` returns (i.e. does not raise), the
returned dict has exactly the keys "timestamp" and "gpu_temperature", in that
order; "timestamp" holds the tick's capture time rendered at second precision
(`fmtTs` depends only on whole seconds, last conjunct); "gpu_temperature"
holds the sensed value, `None` when the sensor read was absent — in which case
nothing was persisted (`s' = s`) yet the dict still has both keys. -/
theorem c10_tick_dict_shape (dbFail : Bool) (s : Store) (ts : Nat)
    (out : List Char) (s' : Store) (dict : List (String × PyVal))
    (h : log_temperature dbFail s ts out = Except.ok (s', dict)) :
    dict = [("timestamp", PyVal.str (fmtTs ts)),
            ("gpu_temperature", optVal (get_gpu_temperature out))]
    ∧ dict.map Prod.fst = ["timestamp", "gpu_temperature"]
    ∧ (get_gpu_temperature out = Option.none → s' = s)
    ∧ (∀ ts2, ts / 1000000 = ts2 / 1000000 → fmtTs ts = fmtTs ts2) := by
  have hmain : dict = tickDict ts (get_gpu_temperature out) ∧
      (get_gpu_temperature out = Option.none → s' = s) := by
    unfold log_temperature at h
    cases hg : get_gpu_temperature out with
    | none =>
      rw [hg] at h
      cases h
      exact ⟨rfl, fun _ => rfl⟩
    | some v =>
      rw [hg] at h
      cases dbFail with
      | true => cases h
      | false =>
        cases h
        exact ⟨rfl, fun hc => by cases hc⟩
  refine ⟨hmain.1, ?_, hmain.2, ?_⟩
  · rw [hmain.1]
    rfl
  · intro ts2 hsec
    unfold fmtTs
    rw [hsec]

/-- Witness for C10: a single-shot tick with empty sensor output at timestamp
0 returns the two-key dict with a `None` temperature and persists nothing. -/
theorem c10_tick_dict_shape_witness :
    tickDict 0 Option.none
      = [("timestamp", PyVal.str (fmtTs 0)),
         ("gpu_temperature", optVal (get_gpu_temperature []))]
    ∧ (tickDict 0 Option.none).map Prod.fst = ["timestamp", "gpu_temperature"] := by
  have h := c10_tick_dict_shape false [] 0 [] [] (tickDict 0 Option.none) rfl
  exact ⟨h.1, h.2.1⟩
